import Mathlib

/-!
Verification development for a chat-bot subdomain manager (`src/main.py`).

The program is a Telegram bot backed by a sqlite database with three tables
(`users`, `subdomains`, `logs`) and an external DNS provider (Cloudflare).
We shallowly embed the database state and each handler as a pure Lean
function from its inputs (database state, session data, message text, and
the outcome of the external DNS call, which we treat as an oracle
parameter) to its outputs (new database state, replies sent, messages sent
to other parties, DNS requests issued).

Notes on the embedding:
* sqlite tables are lists of rows; `subdomains` has PRIMARY KEY
  (subdomain, domain) and `users` has PRIMARY KEY user_id, which we carry
  as uniqueness predicates on states.
* In `create_subdomain` and `auth_middleware` every mutation is followed
  immediately by `conn.commit()`, so a single list suffices there.  In
  `confirm_delete` the `conn.commit()` is issued only AFTER the DNS calls,
  so for the release path we model the connection-visible state and the
  committed (durable) state separately.
* External calls (`cf.zones.dns_records.post`, `cf.zones.get`, record
  lookup/delete, Telegram sends) are modelled by oracle parameters for
  their outcomes; `cf` denotes the Cloudflare client handle.  A raised
  exception inside `create_subdomain`'s try block lands in the `except`
  branch; one raised in `confirm_delete` propagates out of the handler.
* `ADMIN_IDS` is built at startup from the environment and the program
  dereferences `ADMIN_IDS[0]`, so handlers run only with a nonempty admin
  list; we pass the primary admin id (`ADMIN_IDS[0]`) as a parameter.
-/

namespace Bot

/-- Approval status stored in the `users` table (`status` column). -/
inductive UserStatus
  | pending
  | approved
deriving DecidableEq, Repr

/-- A row of the `subdomains` table: PRIMARY KEY (subdomain, domain). -/
structure Claim where
  subdomain : String
  domain : String
  user_id : Nat
deriving DecidableEq, Repr

/-- The persistent database: `users`, `subdomains` and `logs` tables.
Log rows are (user_id, activity); the timestamp is irrelevant to the claims. -/
structure DB where
  users : List (Nat × UserStatus)
  subdomains : List Claim
  logs : List (Nat × String)
deriving DecidableEq, Repr

/-- The body of a `cf.zones.dns_records.post` request (type, name, content, ttl). -/
structure DnsRequest where
  rtype : String
  name : String
  content : String
  ttl : Nat
deriving DecidableEq, Repr

/-- Outcome of the DNS record-creation call, supplied by the environment. -/
inductive DnsOutcome
  | ok
  | err (msg : String)
deriving DecidableEq, Repr

/-- A zone as returned by `cf.zones.get()` (fields `id` and `name`). -/
structure Zone where
  id : String
  name : String
deriving DecidableEq, Repr

/-- Per-conversation FSM session data stored by `state.update_data`. -/
structure Session where
  zone_id : String
  domain : String
deriving DecidableEq, Repr

/-- SELECT status FROM users WHERE user_id=? (at most one row: PRIMARY KEY). -/
def usersLookup (users : List (Nat × UserStatus)) (uid : Nat) : Option UserStatus :=
  match users.find? (fun p => p.1 == uid) with
  | some p => some p.2
  | none => none

/-- SELECT * FROM subdomains WHERE subdomain=? AND domain=? — availability check. -/
def claimExists (subs : List Claim) (s d : String) : Bool :=
  subs.any (fun c => c.subdomain == s && c.domain == d)

/-- The PRIMARY KEY (subdomain, domain) constraint: no two rows share a key. -/
def KeyUnique (subs : List Claim) : Prop :=
  subs.Pairwise (fun a b => ¬ (a.subdomain = b.subdomain ∧ a.domain = b.domain))

instance : DecidablePred KeyUnique := fun subs =>
  List.instDecidablePairwise subs

/-- Result of the auth middleware for one incoming update. -/
inductive AuthResult
  | forwarded
  | blocked
deriving DecidableEq, Repr

/-- Observable outcome of `auth_middleware`: the database afterwards, the
replies answered to the user, the notifications sent to the admin, and
whether the update was forwarded to the inner handler. -/
structure AuthOutcome where
  db : DB
  replies : List String
  adminMsgs : List (Nat × String)
  result : AuthResult
deriving DecidableEq, Repr

/-- The `auth_middleware` access gate (`src/main.py` lines 51-68).
`admin0` is `ADMIN_IDS[0]`.  Unknown user: INSERT a `pending` row, notify
the primary admin, answer the pending notice, do not forward.  Known but
not approved: answer the refusal, do not forward.  Approved: forward. -/
def auth_middleware (admin0 : Nat) (db : DB) (uid : Nat) : AuthOutcome :=
  match usersLookup db.users uid with
  | none =>
    { db := { db with users := db.users ++ [(uid, UserStatus.pending)] }
      replies := ["⏳ Your account is pending approval. Admins have been notified."]
      adminMsgs := [(admin0, "New user request:\nUser ID: " ++ toString uid)]
      result := AuthResult.blocked }
  | some s =>
    if s = UserStatus.approved then
      { db := db, replies := [], adminMsgs := [], result := AuthResult.forwarded }
    else
      { db := db
        replies := ["🔒 Your account is not approved yet."]
        adminMsgs := []
        result := AuthResult.blocked }

/-- `enter_subdomain` (`src/main.py` lines 99-106): resolve the selected
zone id against the zone list (`next(...)` raises, hence `Option`) and
store (zone_id, domain) in the session. -/
def enter_subdomain (zones : List Zone) (zone_id : String) : Option Session :=
  match zones.find? (fun z => z.id == zone_id) with
  | some z => some { zone_id := zone_id, domain := z.name }
  | none => none

/-- Python's `str.strip()`: drop whitespace from both ends. -/
def pyStrip (l : List Char) : List Char :=
  ((l.dropWhile Char.isWhitespace).reverse.dropWhile Char.isWhitespace).reverse

/-- Python's `str.lower()`, character by character. -/
def pyLower (l : List Char) : List Char :=
  l.map Char.toLower

/-- Normalisation applied to the free-text subdomain name:
`message.text.strip().lower()`, carried out on the character list. -/
def normalizeName (text : String) : String :=
  String.mk (pyLower (pyStrip text.toList))

/-- Observable outcome of `create_subdomain`: database afterwards, replies,
the DNS request issued (if any), and whether `state.clear()` ran. -/
structure CreateResult where
  db : DB
  replies : List String
  dnsRequest : Option DnsRequest
  sessionCleared : Bool
deriving DecidableEq, Repr

/-- `create_subdomain` (`src/main.py` lines 108-143).  If the availability
check finds a row, answer the conflict and `return` — note this skips the
`state.clear()` at the end of the handler.  Otherwise POST the CNAME
record; on success INSERT the claim, commit, answer success and log; on
any exception answer the error; either way fall through to
`state.clear()`. -/
def create_subdomain (db : DB) (sess : Session) (uid : Nat) (text : String)
    (dns : DnsOutcome) : CreateResult :=
  let subdomain := normalizeName text
  let domain := sess.domain
  let full_domain := subdomain ++ "." ++ domain
  if claimExists db.subdomains subdomain domain then
    { db := db
      replies := ["❌ This subdomain is already taken!"]
      dnsRequest := none
      sessionCleared := false }
  else
    match dns with
    | DnsOutcome.ok =>
      { db := { db with
          subdomains := db.subdomains ++ [⟨subdomain, domain, uid⟩]
          logs := db.logs ++ [(uid, "Created " ++ full_domain)] }
        replies := ["✅ Success! Your subdomain is ready:\n" ++ full_domain]
        dnsRequest := some ⟨"CNAME", full_domain, "your-target-server.com", 300⟩
        sessionCleared := true }
    | DnsOutcome.err e =>
      { db := db
        replies := ["❌ Error: " ++ e]
        dnsRequest := some ⟨"CNAME", full_domain, "your-target-server.com", 300⟩
        sessionCleared := true }

/-- Observable outcome of `approve_user`: database afterwards, replies to
the admin, and direct messages sent to the approved user. -/
structure ApproveOutcome where
  db : DB
  replies : List String
  userMsgs : List (Nat × String)
deriving DecidableEq, Repr

/-- UPDATE users SET status="approved" WHERE user_id=? — updates matching
rows in place and inserts nothing. -/
def usersSetApproved (users : List (Nat × UserStatus)) (uid : Nat) :
    List (Nat × UserStatus) :=
  users.map (fun p => if p.1 = uid then (p.1, UserStatus.approved) else p)

/-- `approve_user` (`src/main.py` lines 196-209).  Non-admin callers are
silently ignored.  `arg` is the result of `int(message.text.split()[1])`:
`none` models a parse failure (IndexError/ValueError), which lands in the
`except` branch and answers the usage hint. -/
def approve_user (admin_ids : List Nat) (db : DB) (caller : Nat)
    (arg : Option Nat) : ApproveOutcome :=
  if caller ∈ admin_ids then
    match arg with
    | some uid =>
      { db := { db with users := usersSetApproved db.users uid }
        replies := ["✅ User " ++ toString uid ++ " approved"]
        userMsgs := [(uid, "🎉 Your account has been approved!")] }
    | none =>
      { db := db, replies := ["Invalid format. Use /approve USER_ID"], userMsgs := [] }
  else
    { db := db, replies := [], userMsgs := [] }

/-- DELETE row predicate of `confirm_delete`:
subdomain=? AND domain=? AND user_id=?. -/
def rowMatches (s d : String) (u : Nat) (c : Claim) : Bool :=
  c.subdomain == s && c.domain == d && c.user_id == u

/-- State of the `subdomains` table as seen through the shared sqlite
connection (`conn`) versus what has been committed (`durable`).  They
coincide whenever no transaction is pending. -/
structure RelState where
  conn : List Claim
  durable : List Claim
deriving DecidableEq, Repr

/-- Outcome of the DNS chain in `confirm_delete` (`cf.zones.get`, record
lookup, record delete), supplied by the environment: a record was found
and deleted, no record was found (absence treated as success), or some
step raised an exception (including a missing zone). -/
inductive DnsDelOutcome
  | found (record_id : String)
  | notFound
  | raises (e : String)
deriving DecidableEq, Repr

/-- Observable outcome of `confirm_delete`: connection-visible and durable
`subdomains` tables afterwards, replies, appended log rows, whether a DNS
record deletion was issued, and the exception that escaped the handler
(if any). -/
structure ReleaseResult where
  conn : List Claim
  durable : List Claim
  replies : List String
  logs : List (Nat × String)
  dnsDeleted : Bool
  raised : Option String
deriving DecidableEq, Repr

/-- `confirm_delete` (`src/main.py` lines 171-193).  The DELETE filtered by
(subdomain, domain, user_id) executes first on the connection; rowcount 0
answers "not found" and returns.  Otherwise the DNS chain runs, and only
then `conn.commit()`; an exception in the DNS chain propagates out of the
handler before the commit, leaving the deletion uncommitted. -/
def confirm_delete (st : RelState) (sub domain : String) (uid : Nat)
    (dns : DnsDelOutcome) : ReleaseResult :=
  let conn1 := st.conn.filter (fun c => !(rowMatches sub domain uid c))
  let rowcount := st.conn.countP (fun c => rowMatches sub domain uid c)
  if rowcount = 0 then
    { conn := conn1, durable := st.durable
      replies := ["🚫 Subdomain not found!"]
      logs := [], dnsDeleted := false, raised := none }
  else
    match dns with
    | DnsDelOutcome.raises e =>
      { conn := conn1, durable := st.durable
        replies := [], logs := [], dnsDeleted := false, raised := some e }
    | DnsDelOutcome.found _ =>
      { conn := conn1, durable := conn1
        replies := ["🗑️ Successfully deleted: " ++ sub ++ "." ++ domain]
        logs := [(uid, "Deleted " ++ sub ++ "." ++ domain)]
        dnsDeleted := true, raised := none }
    | DnsDelOutcome.notFound =>
      { conn := conn1, durable := conn1
        replies := ["🗑️ Successfully deleted: " ++ sub ++ "." ++ domain]
        logs := [(uid, "Deleted " ++ sub ++ "." ++ domain)]
        dnsDeleted := false, raised := none }

/-- Callback payload attached to a delete button by `delete_subdomain`
(`src/main.py` line 162): the f-string "delete_" + sub + "_" + domain. -/
def deleteCallbackData (sub domain : String) : String :=
  "delete_" ++ sub ++ "_" ++ domain

/-- Python's `str.split('_')`: split a character list at every underscore
(adjacent separators yield empty pieces, like Python's split with an
explicit separator). -/
def splitUnderscore : List Char → List (List Char)
  | [] => [[]]
  | c :: rest =>
    match splitUnderscore rest with
    | [] => [[]]
    | p :: ps => if c = '_' then [] :: p :: ps else (c :: p) :: ps

/-- Python's 3-element unpacking `_, sub, domain = xs`: succeeds only when
the list has exactly three elements, otherwise raises ValueError (`none`). -/
def unpack3 {α : Type} : List α → Option (α × α × α)
  | [a, b, c] => some (a, b, c)
  | _ => none

/-- The parse performed at the top of `confirm_delete` (`src/main.py` line
173): `_, sub, domain = callback.data.split('_')`.  `none` models the
unhandled ValueError. -/
def parseDeleteCallback (data : String) : Option (String × String) :=
  match unpack3 (splitUnderscore data.toList) with
  | some (_, s, d) => some (String.mk s, String.mk d)
  | none => none

/-! Helper lemmas about the table primitives. -/

theorem usersLookup_eq_none_find {users : List (Nat × UserStatus)} {uid : Nat}
    (h : usersLookup users uid = none) :
    users.find? (fun p => p.1 == uid) = none := by
  unfold usersLookup at h
  cases hf : users.find? (fun p => p.1 == uid) with
  | none => rfl
  | some p => rw [hf] at h; cases h

theorem filter_key_eq_nil {users : List (Nat × UserStatus)} {uid : Nat}
    (h : usersLookup users uid = none) :
    users.filter (fun p => p.1 == uid) = [] := by
  rw [List.filter_eq_nil_iff]
  intro a ha hk
  exact (List.find?_eq_none.mp (usersLookup_eq_none_find h) a ha) hk

theorem claimExists_eq_false {subs : List Claim} {s d : String} :
    claimExists subs s d = false ↔
      ∀ c ∈ subs, ¬ (c.subdomain = s ∧ c.domain = d) := by
  simp [claimExists, List.any_eq_false]

/-- C3: the access gate.  An unknown user identity gets exactly one users
row inserted with status pending (the rows keyed by the identity afterwards
are exactly `[(uid, pending)]`), the primary admin is notified, the user is
told they are pending, and the update is not forwarded; a known
non-approved user gets the "not approved" reply and no forwarding; an
approved user's update is forwarded with no reply and no state change. -/
theorem auth_middleware_gate (admin0 : Nat) (db : DB) (uid : Nat) :
    (usersLookup db.users uid = none →
      (auth_middleware admin0 db uid).db.users.filter (fun p => p.1 == uid)
          = [(uid, UserStatus.pending)] ∧
      (auth_middleware admin0 db uid).db.users
          = db.users ++ [(uid, UserStatus.pending)] ∧
      (auth_middleware admin0 db uid).db.subdomains = db.subdomains ∧
      (auth_middleware admin0 db uid).db.logs = db.logs ∧
      (auth_middleware admin0 db uid).adminMsgs
          = [(admin0, "New user request:\nUser ID: " ++ toString uid)] ∧
      (auth_middleware admin0 db uid).replies
          = ["⏳ Your account is pending approval. Admins have been notified."] ∧
      (auth_middleware admin0 db uid).result = AuthResult.blocked) ∧
    (∀ s, usersLookup db.users uid = some s → s ≠ UserStatus.approved →
      (auth_middleware admin0 db uid).db = db ∧
      (auth_middleware admin0 db uid).replies
          = ["🔒 Your account is not approved yet."] ∧
      (auth_middleware admin0 db uid).adminMsgs = [] ∧
      (auth_middleware admin0 db uid).result = AuthResult.blocked) ∧
    (usersLookup db.users uid = some UserStatus.approved →
      (auth_middleware admin0 db uid).db = db ∧
      (auth_middleware admin0 db uid).replies = [] ∧
      (auth_middleware admin0 db uid).adminMsgs = [] ∧
      (auth_middleware admin0 db uid).result = AuthResult.forwarded) := by
  refine ⟨fun h => ?_, fun s h hs => ?_, fun h => ?_⟩
  · have hfil := @filter_key_eq_nil db.users uid h
    simp [auth_middleware, h, List.filter_append, hfil]
  · simp [auth_middleware, h, hs]
  · simp [auth_middleware, h]

/-- Witness for C3: concrete runs through all three branches of the gate. -/
theorem auth_middleware_gate_witness :
    (auth_middleware 99 ⟨[], [], []⟩ 5).db.users = [(5, UserStatus.pending)] ∧
    (auth_middleware 99 ⟨[], [], []⟩ 5).result = AuthResult.blocked ∧
    (auth_middleware 99 ⟨[(5, UserStatus.pending)], [], []⟩ 5).result
        = AuthResult.blocked ∧
    (auth_middleware 99 ⟨[(5, UserStatus.approved)], [], []⟩ 5).result
        = AuthResult.forwarded := by
  refine ⟨?_, ?_, ?_, ?_⟩
  · have h := (auth_middleware_gate 99 ⟨[], [], []⟩ 5).1 (by decide)
    rw [h.2.1]; rfl
  · exact ((auth_middleware_gate 99 ⟨[], [], []⟩ 5).1 (by decide)).2.2.2.2.2.2
  · exact ((auth_middleware_gate 99 ⟨[(5, UserStatus.pending)], [], []⟩ 5).2.1
      UserStatus.pending (by decide) (by decide)).2.2.2
  · exact ((auth_middleware_gate 99 ⟨[(5, UserStatus.approved)], [], []⟩ 5).2.2
      (by decide)).2.2.2

/-- C4: when the DNS record-creation call fails with any error, the error
is reported in the response, no SubdomainClaim row is inserted, no
activity-log entry is appended — the database is unchanged. -/
theorem create_subdomain_dns_failure (db : DB) (sess : Session) (uid : Nat)
    (text e : String)
    (h : claimExists db.subdomains (normalizeName text) sess.domain = false) :
    (create_subdomain db sess uid text (DnsOutcome.err e)).db = db ∧
    (create_subdomain db sess uid text (DnsOutcome.err e)).replies
        = ["❌ Error: " ++ e] := by
  simp [create_subdomain, h]

/-- Witness for C4: a concrete failing DNS call leaves the database as it
was and surfaces the error text. -/
theorem create_subdomain_dns_failure_witness :
    (create_subdomain ⟨[], [], []⟩ ⟨"z1", "example.com"⟩ 7 "blog"
        (DnsOutcome.err "API error")).db = ⟨[], [], []⟩ ∧
    (create_subdomain ⟨[], [], []⟩ ⟨"z1", "example.com"⟩ 7 "blog"
        (DnsOutcome.err "API error")).replies = ["❌ Error: " ++ "API error"] :=
  create_subdomain_dns_failure ⟨[], [], []⟩ ⟨"z1", "example.com"⟩ 7 "blog"
    "API error" (by decide)

/-- C5: when the (subdomain, domain) pair already has a row, the response
is the "already taken" conflict, no DNS request is issued, and the database
is unchanged. -/
theorem create_subdomain_conflict (db : DB) (sess : Session) (uid : Nat)
    (text : String) (dns : DnsOutcome)
    (h : claimExists db.subdomains (normalizeName text) sess.domain = true) :
    (create_subdomain db sess uid text dns).replies
        = ["❌ This subdomain is already taken!"] ∧
    (create_subdomain db sess uid text dns).dnsRequest = none ∧
    (create_subdomain db sess uid text dns).db = db := by
  simp [create_subdomain, h]

/-- Witness for C5: a concrete conflicting claim attempt. -/
theorem create_subdomain_conflict_witness :
    (create_subdomain ⟨[], [⟨"blog", "example.com", 1⟩], []⟩
        ⟨"z1", "example.com"⟩ 2 "blog" DnsOutcome.ok).replies
      = ["❌ This subdomain is already taken!"] ∧
    (create_subdomain ⟨[], [⟨"blog", "example.com", 1⟩], []⟩
        ⟨"z1", "example.com"⟩ 2 "blog" DnsOutcome.ok).dnsRequest = none ∧
    (create_subdomain ⟨[], [⟨"blog", "example.com", 1⟩], []⟩
        ⟨"z1", "example.com"⟩ 2 "blog" DnsOutcome.ok).db
      = ⟨[], [⟨"blog", "example.com", 1⟩], []⟩ :=
  create_subdomain_conflict ⟨[], [⟨"blog", "example.com", 1⟩], []⟩
    ⟨"z1", "example.com"⟩ 2 "blog" DnsOutcome.ok (by decide)

/-- C6 counterexample: a claim attempt that ends in the name-already-taken
conflict, a terminal outcome, does NOT clear the per-conversation session:
the handler returns before reaching `state.clear()`. -/
theorem conflict_session_not_cleared :
    (create_subdomain ⟨[], [⟨"blog", "example.com", 1⟩], []⟩
        ⟨"z1", "example.com"⟩ 2 "blog" DnsOutcome.ok).sessionCleared = false := by
  decide

/-- C6 amended: the session is cleared exactly when the availability check
passes — on the success and DNS-error outcomes — and is left intact on the
name-already-taken conflict. -/
theorem session_cleared_iff_no_conflict (db : DB) (sess : Session) (uid : Nat)
    (text : String) (dns : DnsOutcome) :
    (create_subdomain db sess uid text dns).sessionCleared = true ↔
      claimExists db.subdomains (normalizeName text) sess.domain = false := by
  cases h : claimExists db.subdomains (normalizeName text) sess.domain <;>
    cases dns <;> simp [create_subdomain, h]

/-- C1: the claim-insertion operation preserves the at-most-one-live-row
invariant for every (subdomain, domain) key.  A row is appended only after
the availability check reports the key free, so no reachable state holds
two rows for one key; this is the logical counterpart of the PRIMARY KEY
(subdomain, domain) constraint, which makes a second INSERT for an
existing key fail at the storage layer. -/
theorem create_subdomain_preserves_key_unique (db : DB) (sess : Session)
    (uid : Nat) (text : String) (dns : DnsOutcome)
    (h : KeyUnique db.subdomains) :
    KeyUnique (create_subdomain db sess uid text dns).db.subdomains := by
  cases hc : claimExists db.subdomains (normalizeName text) sess.domain with
  | true => cases dns <;> simpa [create_subdomain, hc] using h
  | false =>
    cases dns with
    | err e => simpa [create_subdomain, hc] using h
    | ok =>
      have hfree := claimExists_eq_false.mp hc
      have hsub : (create_subdomain db sess uid text DnsOutcome.ok).db.subdomains
          = db.subdomains ++ [⟨normalizeName text, sess.domain, uid⟩] := by
        simp [create_subdomain, hc]
      rw [hsub, KeyUnique, List.pairwise_append]
      refine ⟨h, List.pairwise_singleton _ _, ?_⟩
      intro a ha b hb
      simp only [List.mem_singleton] at hb
      subst hb
      exact hfree a ha

/-- Witness for C1: the invariant holds concretely before and after a
successful claim insertion. -/
theorem create_subdomain_preserves_key_unique_witness :
    KeyUnique ([⟨"blog", "example.com", 1⟩] : List Claim) ∧
    KeyUnique (create_subdomain ⟨[], [⟨"blog", "example.com", 1⟩], []⟩
        ⟨"z1", "example.com"⟩ 2 "wiki" DnsOutcome.ok).db.subdomains :=
  ⟨by decide,
   create_subdomain_preserves_key_unique ⟨[], [⟨"blog", "example.com", 1⟩], []⟩
     ⟨"z1", "example.com"⟩ 2 "wiki" DnsOutcome.ok (by decide)⟩

/-- C2: the successful claim flow.  Selecting a listed zone stores the
session (zone id, zone name); entering a free name then issues a CNAME
record creation for subdomain.domain pointing at the fixed configured
target with TTL 300, inserts the (subdomain, domain, user) row, appends
the log entry "Created subdomain.domain", and replies with success text
containing subdomain.domain. -/
theorem claim_flow_success (zones : List Zone) (zid : String) (z : Zone)
    (db : DB) (uid : Nat) (text : String)
    (hz : zones.find? (fun w => w.id == zid) = some z)
    (hfree : claimExists db.subdomains (normalizeName text) z.name = false) :
    enter_subdomain zones zid = some ⟨zid, z.name⟩ ∧
    (create_subdomain db ⟨zid, z.name⟩ uid text DnsOutcome.ok).dnsRequest
        = some ⟨"CNAME", normalizeName text ++ "." ++ z.name,
                "your-target-server.com", 300⟩ ∧
    (create_subdomain db ⟨zid, z.name⟩ uid text DnsOutcome.ok).db.subdomains
        = db.subdomains ++ [⟨normalizeName text, z.name, uid⟩] ∧
    (create_subdomain db ⟨zid, z.name⟩ uid text DnsOutcome.ok).db.logs
        = db.logs ++ [(uid, "Created " ++ (normalizeName text ++ "." ++ z.name))] ∧
    (∃ pre, (create_subdomain db ⟨zid, z.name⟩ uid text DnsOutcome.ok).replies
        = [pre ++ (normalizeName text ++ "." ++ z.name)]) := by
  refine ⟨?_, ?_, ?_, ?_, ?_⟩
  · simp [enter_subdomain, hz]
  · simp [create_subdomain, hfree]
  · simp [create_subdomain, hfree]
  · simp [create_subdomain, hfree]
  · exact ⟨"✅ Success! Your subdomain is ready:\n", by simp [create_subdomain, hfree]⟩

/-- Witness for C2: approved user 7 selects `example.com` and enters
`blog`; every effect of the success path is evaluated concretely. -/
theorem claim_flow_success_witness :
    enter_subdomain [⟨"z1", "example.com"⟩] "z1" = some ⟨"z1", "example.com"⟩ ∧
    (create_subdomain ⟨[], [], []⟩ ⟨"z1", "example.com"⟩ 7 "blog"
        DnsOutcome.ok).dnsRequest
      = some ⟨"CNAME", "blog.example.com", "your-target-server.com", 300⟩ ∧
    (create_subdomain ⟨[], [], []⟩ ⟨"z1", "example.com"⟩ 7 "blog"
        DnsOutcome.ok).db.subdomains = [⟨"blog", "example.com", 7⟩] ∧
    (create_subdomain ⟨[], [], []⟩ ⟨"z1", "example.com"⟩ 7 "blog"
        DnsOutcome.ok).db.logs = [(7, "Created blog.example.com")] ∧
    (∃ pre, (create_subdomain ⟨[], [], []⟩ ⟨"z1", "example.com"⟩ 7 "blog"
        DnsOutcome.ok).replies = [pre ++ "blog.example.com"]) := by
  have h := claim_flow_success [⟨"z1", "example.com"⟩] "z1" ⟨"z1", "example.com"⟩
    ⟨[], [], []⟩ 7 "blog" (by decide) (by decide)
  refine ⟨h.1, ?_, ?_, ?_, ?_⟩
  · rw [h.2.1]; decide
  · rw [h.2.2.1]; decide
  · rw [h.2.2.2.1]; decide
  · obtain ⟨pre, hp⟩ := h.2.2.2.2
    refine ⟨pre, ?_⟩
    rw [hp]
    have hfull : normalizeName "blog" ++ "." ++ (Zone.mk "z1" "example.com").name
        = "blog.example.com" := by decide
    rw [hfull]

/-! Lemmas about the UPDATE in `approve_user`. -/

theorem usersSetApproved_eq_self {users : List (Nat × UserStatus)} {uid : Nat}
    (h : ∀ p ∈ users, p.1 ≠ uid) :
    usersSetApproved users uid = users := by
  induction users with
  | nil => rfl
  | cons a rest ih =>
    unfold usersSetApproved at *
    simp only [List.map_cons]
    rw [if_neg (h a (List.mem_cons_self a rest)),
      ih (fun p hp => h p (List.mem_cons_of_mem a hp))]

theorem usersSetApproved_of_lookup_none {users : List (Nat × UserStatus)}
    {uid : Nat} (h : usersLookup users uid = none) :
    usersSetApproved users uid = users := by
  refine usersSetApproved_eq_self (fun p hp => ?_)
  have := List.find?_eq_none.mp (usersLookup_eq_none_find h) p hp
  simpa using this

theorem usersSetApproved_idem (users : List (Nat × UserStatus)) (uid : Nat) :
    usersSetApproved (usersSetApproved users uid) uid
      = usersSetApproved users uid := by
  induction users with
  | nil => rfl
  | cons a rest ih =>
    unfold usersSetApproved at *
    simp only [List.map_cons]
    by_cases ha : a.1 = uid <;> simp [ha, ih]

theorem usersSetApproved_filter_nil {rest : List (Nat × UserStatus)} {uid : Nat}
    (h : rest.filter (fun p => p.1 == uid) = []) :
    (usersSetApproved rest uid).filter (fun p => p.1 == uid) = [] := by
  rw [List.filter_eq_nil_iff] at h ⊢
  intro a ha
  obtain ⟨b, hb, hba⟩ := List.mem_map.mp ha
  subst hba
  have hbk := h b hb
  by_cases hb1 : b.1 = uid
  · exact absurd (by simp [hb1]) hbk
  · simp [usersSetApproved, hb1]

theorem usersSetApproved_filter {users : List (Nat × UserStatus)} {uid : Nat}
    {s : UserStatus}
    (h : users.filter (fun p => p.1 == uid) = [(uid, s)]) :
    (usersSetApproved users uid).filter (fun p => p.1 == uid)
      = [(uid, UserStatus.approved)] := by
  induction users with
  | nil => simp at h
  | cons a rest ih =>
    by_cases ha : a.1 = uid
    · rw [List.filter_cons_of_pos (by simp [ha])] at h
      have hhead : a = (uid, s) := (List.cons_eq_cons.mp h).1
      have htail : rest.filter (fun p => p.1 == uid) = [] :=
        (List.cons_eq_cons.mp h).2
      unfold usersSetApproved
      simp only [List.map_cons]
      rw [if_pos ha, ha,
        List.filter_cons_of_pos (by simp)]
      have hnil := usersSetApproved_filter_nil htail
      unfold usersSetApproved at hnil
      rw [hnil]
    · rw [List.filter_cons_of_neg (by simp [ha])] at h
      unfold usersSetApproved
      simp only [List.map_cons]
      rw [if_neg ha, List.filter_cons_of_neg (by simp [ha])]
      exact ih h

/-- C7 counterexample: an admin approving an identity with no users row
creates nothing — the users table stays empty and the lookup still misses,
contradicting the claim that the operation can create a row in approved
state.  (The handler still replies with the success text.) -/
theorem approve_user_creates_no_row :
    (approve_user [1] ⟨[], [], []⟩ 1 (some 5)).db.users = [] ∧
    usersLookup (approve_user [1] ⟨[], [], []⟩ 1 (some 5)).db.users 5 = none ∧
    (approve_user [1] ⟨[], [], []⟩ 1 (some 5)).replies
      = ["✅ User " ++ toString 5 ++ " approved"] := by
  decide

/-- C7 amended: for an admin caller, `/approve uid` runs
UPDATE users SET status="approved" WHERE user_id=?.  If exactly one row
holds the identity, it becomes the single approved row; the operation is
idempotent (a second invocation changes nothing) and error-free (it always
replies with the success text); it never changes the number of rows, and
for an identity with no row it leaves the table unchanged — it cannot
create a row in approved state. -/
theorem approve_user_amended (admins : List Nat) (db : DB) (adm uid : Nat)
    (s : UserStatus) (hadm : adm ∈ admins) :
    (db.users.filter (fun p => p.1 == uid) = [(uid, s)] →
      (approve_user admins db adm (some uid)).db.users.filter
          (fun p => p.1 == uid) = [(uid, UserStatus.approved)]) ∧
    (approve_user admins (approve_user admins db adm (some uid)).db adm
        (some uid)).db.users
      = (approve_user admins db adm (some uid)).db.users ∧
    (approve_user admins db adm (some uid)).db.users.length
      = db.users.length ∧
    (usersLookup db.users uid = none →
      (approve_user admins db adm (some uid)).db.users = db.users) ∧
    (approve_user admins db adm (some uid)).replies
      = ["✅ User " ++ toString uid ++ " approved"] := by
  have hr : approve_user admins db adm (some uid)
      = { db := { db with users := usersSetApproved db.users uid }
          replies := ["✅ User " ++ toString uid ++ " approved"]
          userMsgs := [(uid, "🎉 Your account has been approved!")] } := by
    simp [approve_user, hadm]
  refine ⟨fun hf => ?_, ?_, ?_, fun hn => ?_, ?_⟩
  · rw [hr]; exact usersSetApproved_filter hf
  · rw [hr]; simp [approve_user, hadm, usersSetApproved_idem]
  · rw [hr]; exact List.length_map _ _
  · rw [hr]; exact usersSetApproved_of_lookup_none hn
  · rw [hr]

/-- Witness for C7: admin 1 approves the pending user 5 — one approved row
results, a second invocation changes nothing, and the row count stays 1. -/
theorem approve_user_amended_witness :
    (approve_user [1] ⟨[(5, UserStatus.pending)], [], []⟩ 1 (some 5)).db.users.filter
        (fun p => p.1 == 5) = [(5, UserStatus.approved)] ∧
    (approve_user [1]
        (approve_user [1] ⟨[(5, UserStatus.pending)], [], []⟩ 1 (some 5)).db
        1 (some 5)).db.users
      = (approve_user [1] ⟨[(5, UserStatus.pending)], [], []⟩ 1 (some 5)).db.users ∧
    (approve_user [1] ⟨[(5, UserStatus.pending)], [], []⟩ 1 (some 5)).db.users.length
      = 1 := by
  have h := approve_user_amended [1] ⟨[(5, UserStatus.pending)], [], []⟩ 1 5
    UserStatus.pending (by decide)
  exact ⟨h.1 (by decide), h.2.1, by rw [h.2.2.1]; rfl⟩

/-! Lemmas about the DELETE predicate of the release path. -/

theorem rowMatches_iff {s d : String} {u : Nat} {c : Claim} :
    rowMatches s d u c = true ↔ c = ⟨s, d, u⟩ := by
  cases c
  simp [rowMatches, Claim.mk.injEq, and_assoc]

theorem key_determines_row : ∀ {subs : List Claim}, KeyUnique subs →
    ∀ a ∈ subs, ∀ b ∈ subs,
      a.subdomain = b.subdomain → a.domain = b.domain → a = b := by
  intro subs
  induction subs with
  | nil => intro _ a ha; cases ha
  | cons x rest ih =>
    intro hu a ha b hb hs hd
    rw [KeyUnique, List.pairwise_cons] at hu
    rcases List.mem_cons.mp ha with rfl | ha'
    · rcases List.mem_cons.mp hb with rfl | hb'
      · rfl
      · exact absurd ⟨hs, hd⟩ (hu.1 b hb')
    · rcases List.mem_cons.mp hb with rfl | hb'
      · exact absurd ⟨hs.symm, hd.symm⟩ (hu.1 a ha')
      · exact ih hu.2 a ha' b hb' hs hd

theorem keyUnique_nodup {subs : List Claim} (hu : KeyUnique subs) :
    subs.Nodup := by
  refine List.Pairwise.imp ?_ hu
  intro a b hab hEq
  exact hab ⟨by rw [hEq], by rw [hEq]⟩

theorem countP_rowMatches_eq_one {subs : List Claim} {s d : String} {u : Nat}
    (hu : KeyUnique subs) (hmem : (⟨s, d, u⟩ : Claim) ∈ subs) :
    subs.countP (fun c => rowMatches s d u c) = 1 := by
  have hcongr : subs.countP (fun c => rowMatches s d u c)
      = List.count (⟨s, d, u⟩ : Claim) subs := by
    refine List.countP_congr (fun c hc => ?_)
    constructor
    · intro h; simp [rowMatches_iff.mp h]
    · intro h; exact rowMatches_iff.mpr (by simpa using h)
  rw [hcongr]
  exact List.count_eq_one_of_mem (keyUnique_nodup hu) hmem

theorem filter_not_rowMatches_length {subs : List Claim} {s d : String}
    {u : Nat} (hu : KeyUnique subs) (hmem : (⟨s, d, u⟩ : Claim) ∈ subs) :
    (subs.filter (fun c => !(rowMatches s d u c))).length + 1 = subs.length := by
  have h1 := @List.length_eq_countP_add_countP _ (fun c => rowMatches s d u c) subs
  have h2 : subs.countP (fun a => ¬ rowMatches s d u a = true)
      = subs.countP (fun c => !(rowMatches s d u c)) :=
    List.countP_congr (fun x _ => by cases hxx : rowMatches s d u x <;> simp [hxx])
  rw [countP_rowMatches_eq_one hu hmem, h2, List.countP_eq_length_filter] at h1
  omega

/-- C8: the release selection deletes a SubdomainClaim row only when it
matches (subdomain, domain, caller).  A release attempt by a non-owning
user for an existing claim affects zero rows, answers "not found", and
leaves both the connection view and the durable registry unchanged; a
release by the owner removes exactly the matching row: the row is gone,
every other row survives, and the row count drops by one. -/
theorem confirm_delete_ownership (st : RelState) (s d : String) (uid o : Nat)
    (rid : String) (dns : DnsDelOutcome) (hu : KeyUnique st.conn) :
    ((⟨s, d, o⟩ : Claim) ∈ st.conn → o ≠ uid →
      (confirm_delete st s d uid dns).replies = ["🚫 Subdomain not found!"] ∧
      (confirm_delete st s d uid dns).conn = st.conn ∧
      (confirm_delete st s d uid dns).durable = st.durable ∧
      (confirm_delete st s d uid dns).dnsDeleted = false) ∧
    ((⟨s, d, uid⟩ : Claim) ∈ st.conn →
      (⟨s, d, uid⟩ : Claim)
          ∉ (confirm_delete st s d uid (DnsDelOutcome.found rid)).durable ∧
      (∀ c ∈ st.conn, c ≠ ⟨s, d, uid⟩ →
        c ∈ (confirm_delete st s d uid (DnsDelOutcome.found rid)).durable) ∧
      (confirm_delete st s d uid (DnsDelOutcome.found rid)).durable.length + 1
          = st.conn.length) := by
  constructor
  · intro hmemo hneq
    have hzero : st.conn.countP (fun c => rowMatches s d uid c) = 0 := by
      rw [List.countP_eq_zero]
      intro c hc hmatch
      have hc' : c = ⟨s, d, uid⟩ := rowMatches_iff.mp hmatch
      subst hc'
      have heq : (⟨s, d, uid⟩ : Claim) = ⟨s, d, o⟩ :=
        key_determines_row hu _ hc _ hmemo rfl rfl
      have : uid = o := congrArg Claim.user_id heq
      exact hneq this.symm
    have hfil : st.conn.filter (fun c => !(rowMatches s d uid c)) = st.conn := by
      rw [List.filter_eq_self]
      intro a ha
      have hna := List.countP_eq_zero.mp hzero a ha
      cases hb : rowMatches s d uid a
      · simp
      · exact absurd hb hna
    have hres : confirm_delete st s d uid dns
        = { conn := st.conn, durable := st.durable
            replies := ["🚫 Subdomain not found!"]
            logs := [], dnsDeleted := false, raised := none } := by
      simp [confirm_delete, hzero, hfil]
    rw [hres]
    exact ⟨rfl, rfl, rfl, rfl⟩
  · intro hmem
    have hpos : ¬ st.conn.countP (fun c => rowMatches s d uid c) = 0 := by
      intro hall
      exact (List.countP_eq_zero.mp hall ⟨s, d, uid⟩ hmem) (rowMatches_iff.mpr rfl)
    have hdur : (confirm_delete st s d uid (DnsDelOutcome.found rid)).durable
        = st.conn.filter (fun c => !(rowMatches s d uid c)) := by
      simp [confirm_delete, hpos]
    refine ⟨?_, ?_, ?_⟩
    · rw [hdur]
      intro hc
      have hp := (List.mem_filter.mp hc).2
      have hm : rowMatches s d uid ⟨s, d, uid⟩ = true := rowMatches_iff.mpr rfl
      rw [hm] at hp
      simp at hp
    · intro c hc hne
      rw [hdur]
      refine List.mem_filter.mpr ⟨hc, ?_⟩
      cases hcm : rowMatches s d uid c
      · simp
      · exact absurd (rowMatches_iff.mp hcm) hne
    · rw [hdur]
      exact filter_not_rowMatches_length hu hmem

/-- Witness for C8: user 2 fails to release the claim owned by user 1
("not found", registry untouched); user 1 releases it and exactly that
row disappears. -/
theorem confirm_delete_ownership_witness :
    (confirm_delete ⟨[⟨"blog", "example.com", 1⟩], [⟨"blog", "example.com", 1⟩]⟩
        "blog" "example.com" 2 DnsDelOutcome.notFound).replies
      = ["🚫 Subdomain not found!"] ∧
    (confirm_delete ⟨[⟨"blog", "example.com", 1⟩], [⟨"blog", "example.com", 1⟩]⟩
        "blog" "example.com" 2 DnsDelOutcome.notFound).conn
      = [⟨"blog", "example.com", 1⟩] ∧
    (⟨"blog", "example.com", 1⟩ : Claim)
        ∉ (confirm_delete ⟨[⟨"blog", "example.com", 1⟩], [⟨"blog", "example.com", 1⟩]⟩
            "blog" "example.com" 1 (DnsDelOutcome.found "r1")).durable ∧
    (confirm_delete ⟨[⟨"blog", "example.com", 1⟩], [⟨"blog", "example.com", 1⟩]⟩
        "blog" "example.com" 1 (DnsDelOutcome.found "r1")).durable.length + 1
      = 1 := by
  have h1 := confirm_delete_ownership
    ⟨[⟨"blog", "example.com", 1⟩], [⟨"blog", "example.com", 1⟩]⟩
    "blog" "example.com" 2 1 "r1" DnsDelOutcome.notFound (by decide)
  have h2 := confirm_delete_ownership
    ⟨[⟨"blog", "example.com", 1⟩], [⟨"blog", "example.com", 1⟩]⟩
    "blog" "example.com" 1 1 "r1" DnsDelOutcome.notFound (by decide)
  refine ⟨(h1.1 (by decide) (by decide)).1,
    ((h1.1 (by decide) (by decide)).2.1).trans rfl,
    (h2.2 (by decide)).1,
    ((h2.2 (by decide)).2.2).trans rfl⟩

/-- C9 counterexample: with one committed claim, the owner's release hits
a DNS failure — and the durable registry still contains the claim row,
because `conn.commit()` is only reached after the DNS calls.  The claim
that the registry deletion "takes durable effect before the DNS deletion"
(row already gone on DNS failure) is false at this input. -/
theorem release_durable_retains_row_on_dns_failure :
    (confirm_delete ⟨[⟨"blog", "example.com", 1⟩], [⟨"blog", "example.com", 1⟩]⟩
        "blog" "example.com" 1 (DnsDelOutcome.raises "API error")).durable
      = [⟨"blog", "example.com", 1⟩] ∧
    (⟨"blog", "example.com", 1⟩ : Claim) ∈
      (confirm_delete ⟨[⟨"blog", "example.com", 1⟩], [⟨"blog", "example.com", 1⟩]⟩
        "blog" "example.com" 1 (DnsDelOutcome.raises "API error")).durable := by
  decide

/-- C9 amended: the registry DELETE statement executes before the DNS
calls, so on a DNS failure the shared connection already sees the row gone
while no DNS deletion was issued (the record still exists); but the commit
is issued only after the DNS deletion, so the exception escapes before it
and the deletion has not yet taken durable effect — the durable registry
still contains the row, and no reply or log entry is produced. -/
theorem confirm_delete_dns_exception (st : RelState) (s d : String) (uid : Nat)
    (e : String) (hmem : (⟨s, d, uid⟩ : Claim) ∈ st.conn) :
    (⟨s, d, uid⟩ : Claim)
        ∉ (confirm_delete st s d uid (DnsDelOutcome.raises e)).conn ∧
    (confirm_delete st s d uid (DnsDelOutcome.raises e)).durable = st.durable ∧
    (confirm_delete st s d uid (DnsDelOutcome.raises e)).dnsDeleted = false ∧
    (confirm_delete st s d uid (DnsDelOutcome.raises e)).raised = some e ∧
    (confirm_delete st s d uid (DnsDelOutcome.raises e)).replies = [] ∧
    (confirm_delete st s d uid (DnsDelOutcome.raises e)).logs = [] := by
  have hpos : ¬ st.conn.countP (fun c => rowMatches s d uid c) = 0 := by
    intro hall
    exact (List.countP_eq_zero.mp hall ⟨s, d, uid⟩ hmem) (rowMatches_iff.mpr rfl)
  have hres : confirm_delete st s d uid (DnsDelOutcome.raises e)
      = { conn := st.conn.filter (fun c => !(rowMatches s d uid c))
          durable := st.durable, replies := [], logs := []
          dnsDeleted := false, raised := some e } := by
    simp [confirm_delete, hpos]
  rw [hres]
  refine ⟨?_, rfl, rfl, rfl, rfl, rfl⟩
  intro hc
  have hp := (List.mem_filter.mp hc).2
  rw [rowMatches_iff.mpr rfl] at hp
  simp at hp

/-- Witness for C9 (amended): the connection view lost the row while the
durable table kept it, at a concrete state. -/
theorem confirm_delete_dns_exception_witness :
    (⟨"blog", "example.com", 1⟩ : Claim) ∉
      (confirm_delete ⟨[⟨"blog", "example.com", 1⟩], [⟨"blog", "example.com", 1⟩]⟩
        "blog" "example.com" 1 (DnsDelOutcome.raises "API error")).conn ∧
    (confirm_delete ⟨[⟨"blog", "example.com", 1⟩], [⟨"blog", "example.com", 1⟩]⟩
        "blog" "example.com" 1 (DnsDelOutcome.raises "API error")).durable
      = [⟨"blog", "example.com", 1⟩] := by
  have h := confirm_delete_dns_exception
    ⟨[⟨"blog", "example.com", 1⟩], [⟨"blog", "example.com", 1⟩]⟩
    "blog" "example.com" 1 "API error" (by decide)
  exact ⟨h.1, (h.2.1).trans rfl⟩

/-! Lemmas about the split-based callback parsing of the release flow. -/

theorem splitUnderscore_ne_nil (l : List Char) : splitUnderscore l ≠ [] := by
  induction l with
  | nil => simp [splitUnderscore]
  | cons c rest ih =>
    unfold splitUnderscore
    cases hs : splitUnderscore rest with
    | nil => simp
    | cons p ps => by_cases hc : c = '_' <;> simp [hc]

theorem splitUnderscore_length (l : List Char) :
    (splitUnderscore l).length = l.count '_' + 1 := by
  induction l with
  | nil => simp [splitUnderscore]
  | cons c rest ih =>
    unfold splitUnderscore
    cases hs : splitUnderscore rest with
    | nil => exact absurd hs (splitUnderscore_ne_nil rest)
    | cons p ps =>
      rw [hs] at ih
      simp only [List.length_cons] at ih
      by_cases hc : c = '_'
      · simp [hc, List.count_cons]
        omega
      · have hc' : ¬ ('_' = c) := fun h => hc h.symm
        simp [List.count_cons, hc, hc']
        omega

theorem count_underscore_callbackData (sub domain : String) :
    (deleteCallbackData sub domain).toList.count '_'
      = sub.toList.count '_' + domain.toList.count '_' + 2 := by
  have h1 : List.count '_' ['d', 'e', 'l', 'e', 't', 'e', '_'] = 1 := by decide
  have h2 : List.count '_' (['_'] : List Char) = 1 := by decide
  unfold deleteCallbackData
  simp only [String.toList, String.data_append, List.count_append]
  omega

theorem unpack3_eq_none {α : Type} (l : List α) (h : ¬ l.length = 3) :
    unpack3 l = none := by
  rcases l with _ | ⟨a, _ | ⟨b, _ | ⟨c, _ | ⟨d, t⟩⟩⟩⟩
  · rfl
  · rfl
  · rfl
  · exact absurd rfl h
  · rfl

theorem parseDeleteCallback_underscore (sub domain : String)
    (hu : '_' ∈ sub.toList) :
    parseDeleteCallback (deleteCallbackData sub domain) = none := by
  have hcount : 0 < sub.toList.count '_' := List.count_pos_iff.mpr hu
  have hlen := splitUnderscore_length (deleteCallbackData sub domain).toList
  have hge : ¬ (splitUnderscore (deleteCallbackData sub domain).toList).length = 3 := by
    rw [hlen, count_underscore_callbackData]
    omega
  unfold parseDeleteCallback
  rw [unpack3_eq_none _ hge]

/-- C10: `create_subdomain` applies only strip().lower() to the entered
text — no character validation — so a subdomain containing an underscore
is accepted and its row is inserted; the release flow then encodes the
delete button as "delete_sub_domain" and `confirm_delete` unpacks
`callback.data.split("_")` into exactly three pieces, which raises an
unhandled ValueError (parse result `none`) whenever the subdomain itself
contains an underscore — such a claim can never be released through the
normal flow. -/
theorem underscore_claim_unreleasable (db : DB) (sess : Session) (uid : Nat)
    (text : String) (hu : '_' ∈ (normalizeName text).toList)
    (hfree : claimExists db.subdomains (normalizeName text) sess.domain = false) :
    (create_subdomain db sess uid text DnsOutcome.ok).db.subdomains
        = db.subdomains ++ [⟨normalizeName text, sess.domain, uid⟩] ∧
    parseDeleteCallback (deleteCallbackData (normalizeName text) sess.domain)
        = none := by
  constructor
  · simp [create_subdomain, hfree]
  · exact parseDeleteCallback_underscore _ _ hu

/-- Witness for C10: user 7 claims `my_blog` under `example.com`; the row
is inserted, and the release-callback parse of that claim fails. -/
theorem underscore_claim_unreleasable_witness :
    (create_subdomain ⟨[], [], []⟩ ⟨"z1", "example.com"⟩ 7 "my_blog"
        DnsOutcome.ok).db.subdomains = [⟨"my_blog", "example.com", 7⟩] ∧
    parseDeleteCallback (deleteCallbackData "my_blog" "example.com") = none := by
  have h := underscore_claim_unreleasable ⟨[], [], []⟩ ⟨"z1", "example.com"⟩ 7
    "my_blog" (by decide) (by decide)
  constructor
  · rw [h.1]; decide
  · have h2 := h.2
    have hn : normalizeName "my_blog" = "my_blog" := by decide
    rw [hn] at h2
    exact h2

end Bot
